import Mathlib

/-!
Verification of the scaffold project generator.

A shallow embedding of the Go sources of the scaffold tool: the template
package (project types, configuration, directory policy), the generator
package (Generate, createDirectories, generateFiles, generateWorkflowFiles,
copyWorkflowFile, generateFile, createGitkeepFiles, preview,
ValidateProjectName), and the non-interactive configuration path of runNew.

The filesystem is modelled as the finite collection of directory paths and
of (file path, content) pairs; paths are strings joined with a slash, as
filepath.Join produces on the relevant inputs.  Fallible filesystem
operations are parameterised by oracles (Env.mkdirOk, Env.writeOk) deciding
which operations succeed, and the embedded-template store is modelled by a
TemplateSource capability, matching the GetTemplate / GetWorkflowFile split
of the templates package.  Errors propagate as Except, mutations performed
before a failure persist (the tool performs no rollback).
-/

namespace Scaffold

/-- Project type constant "cli" from the templates package. -/
def TypeCLI : String := "cli"

/-- Project type constant "library" from the templates package. -/
def TypeLibrary : String := "library"

/-- Project type constant "service" from the templates package. -/
def TypeService : String := "service"

/-- ProjectConfig from the templates package.  ProjectType is a string type
in the source; the field named Type there is called PType here because
Type is a Lean keyword. -/
structure ProjectConfig where
  ProjectName : String
  ModulePath : String
  Author : String
  License : String
  PType : String
deriving DecidableEq, Repr

/-- DirectoryStructure from the templates package: the switch on the
project type, with the same case order (library, cli, service, default)
and the same lists as the source. -/
def DirectoryStructure (projectType : String) : List String :=
  if projectType = TypeLibrary then
    ["internal", "pkg", "cmd", "scripts", "test", "docs", "examples"]
  else if projectType = TypeCLI then
    ["cmd", "internal", "pkg", "api", "configs", "scripts", "build", "test",
     "docs", "examples"]
  else if projectType = TypeService then
    ["cmd", "internal", "pkg", "api", "web", "configs", "scripts", "build",
     "test", "docs", "examples"]
  else
    ["cmd", "internal", "pkg", "api", "configs", "scripts", "build", "test",
     "docs", "examples"]

/-- The reserved characters of ValidateProjectName, the string
literal given to strings.ContainsAny in the source. -/
def invalidChars : List Char := [' ', '/', '\\', ':', '*', '?', '"', '<', '>', '|']

/-- strings.ContainsAny: does the string contain any character of the set. -/
def containsAny (s : String) (chars : List Char) : Bool :=
  s.data.any (fun c => chars.contains c)

/-- ValidateProjectName from the generator package. -/
def ValidateProjectName (name : String) : Except String Unit :=
  if name = "" then .error "project name cannot be empty"
  else if containsAny name invalidChars then
    .error "project name contains invalid characters"
  else .ok ()

/-- The command-line flags of the new command that feed the initial
ProjectConfig in runNew. -/
structure Flags where
  modulePath : String
  author : String
  license : String
  projectType : String
deriving DecidableEq, Repr

/-- The non-interactive configuration path of runNew: validate the project
name, build the initial config from the flags, reject an invalid project
type, then fill the non-interactive defaults (empty ModulePath becomes the
project name, empty Author becomes "Your Name").  Returns the configuration
handed to the Generator. -/
def runNewNonInteractive (projectName : String) (flags : Flags) :
    Except String ProjectConfig :=
  match ValidateProjectName projectName with
  | .error e => .error e
  | .ok _ =>
    let pType := flags.projectType
    let cfg : ProjectConfig :=
      { ProjectName := projectName, ModulePath := flags.modulePath,
        Author := flags.author, License := flags.license, PType := pType }
    if pType ≠ TypeCLI ∧ pType ≠ TypeLibrary ∧ pType ≠ TypeService then
      .error ("invalid project type: " ++ pType ++
        " (must be cli, library, or service)")
    else
      .ok { cfg with
            ModulePath := if cfg.ModulePath = "" then projectName
                          else cfg.ModulePath,
            Author := if cfg.Author = "" then "Your Name" else cfg.Author }

/-- filepath.Join on two components, for the inputs the tool produces:
clean relative names joined under a base path with a slash. -/
def joinPath (a b : String) : String := a ++ "/" ++ b

/-- The filesystem state: the set of existing directory paths and the
existing files with their contents (later entries shadow earlier ones,
matching os.WriteFile overwriting). -/
structure FS where
  dirs : List String
  files : List (String × String)
deriving DecidableEq, Repr

/-- All existing paths, directories and files alike: what os.Stat sees. -/
def FS.paths (fs : FS) : List String := fs.dirs ++ fs.files.map Prod.fst

/-- os.Stat succeeding: the path exists as a directory or a file. -/
def pathExists (fs : FS) (p : String) : Bool := fs.paths.contains p

/-- The template source capability of the templates package: GetTemplate
resolves a name to a parsed template (which may itself fail to resolve or
to execute against a configuration), GetWorkflowFile resolves a name to
literal bytes.  The embedded files/ directory is not part of the sources,
so the contents stay abstract. -/
structure TemplateSource where
  GetTemplate : String → Except String (ProjectConfig → Except String String)
  GetWorkflowFile : String → Except String String

/-- The effect environment for one run: which MkdirAll and WriteFile calls
succeed, and the template source in use. -/
structure Env where
  mkdirOk : String → Bool
  writeOk : String → Bool
  tsrc : TemplateSource

/-- os.MkdirAll: on success records the requested directory path. -/
def osMkdirAll (env : Env) (p : String) (fs : FS) : Except String Unit × FS :=
  if env.mkdirOk p then (.ok (), { fs with dirs := fs.dirs ++ [p] })
  else (.error ("mkdir " ++ p), fs)

/-- os.WriteFile: on success records the (path, content) pair. -/
def osWriteFile (env : Env) (p : String) (content : String) (fs : FS) :
    Except String Unit × FS :=
  if env.writeOk p then (.ok (), { fs with files := fs.files ++ [(p, content)] })
  else (.error ("write " ++ p), fs)

/-- The Generator struct of the generator package. -/
structure Generator where
  config : ProjectConfig
  baseDir : String
  dryRun : Bool
deriving DecidableEq, Repr

/-- New from the generator package. -/
def New (config : ProjectConfig) (baseDir : String) (dryRun : Bool) :
    Generator :=
  { config := config, baseDir := baseDir, dryRun := dryRun }

/-- The target path filepath.Join(g.baseDir, g.config.ProjectName) computed
at the top of Generate and of preview. -/
def Generator.projectPath (g : Generator) : String :=
  joinPath g.baseDir g.config.ProjectName

/-- The loop body of createDirectories over the policy directories:
MkdirAll each, returning the first error. -/
def createDirsLoop (env : Env) (projectPath : String) :
    List String → FS → Except String Unit × FS
  | [], fs => (.ok (), fs)
  | dir :: rest, fs =>
    match osMkdirAll env (joinPath projectPath dir) fs with
    | (.ok _, fs1) => createDirsLoop env projectPath rest fs1
    | (.error e, fs1) =>
      (.error ("failed to create directory " ++ dir ++ ": " ++ e), fs1)

/-- createDirectories from the generator package: the policy directories,
then cmd/ProjectName, then .github/workflows. -/
def Generator.createDirectories (g : Generator) (env : Env)
    (projectPath : String) (fs : FS) : Except String Unit × FS :=
  match createDirsLoop env projectPath (DirectoryStructure g.config.PType) fs with
  | (.error e, fs1) => (.error e, fs1)
  | (.ok _, fs1) =>
    match osMkdirAll env
        (joinPath (joinPath projectPath "cmd") g.config.ProjectName) fs1 with
    | (.error e, fs2) =>
      (.error ("failed to create cmd directory: " ++ e), fs2)
    | (.ok _, fs2) =>
      match osMkdirAll env
          (joinPath (joinPath projectPath ".github") "workflows") fs2 with
      | (.error e, fs3) =>
        (.error ("failed to create .github/workflows directory: " ++ e), fs3)
      | (.ok _, fs3) => (.ok (), fs3)

/-- generateFile from the generator package: resolve the named template,
execute it against the configuration, write the rendered bytes. -/
def Generator.generateFile (g : Generator) (env : Env)
    (projectPath fileName templateName : String) (fs : FS) :
    Except String Unit × FS :=
  match env.tsrc.GetTemplate templateName with
  | .error e =>
    (.error ("failed to load template " ++ templateName ++ ": " ++ e), fs)
  | .ok tmpl =>
    match tmpl g.config with
    | .error e =>
      (.error ("failed to execute template " ++ templateName ++ ": " ++ e), fs)
    | .ok content => osWriteFile env (joinPath projectPath fileName) content fs

/-- copyWorkflowFile from the generator package: read the raw workflow
bytes and write them unchanged, with no template execution. -/
def Generator.copyWorkflowFile (g : Generator) (env : Env)
    (projectPath destPath srcPath : String) (fs : FS) :
    Except String Unit × FS :=
  match env.tsrc.GetWorkflowFile srcPath with
  | .error e =>
    (.error ("failed to read workflow file " ++ srcPath ++ ": " ++ e), fs)
  | .ok content => osWriteFile env (joinPath projectPath destPath) content fs

/-- getMakefileTemplate from the generator package: the switch on the
project type with the same case order (library, service, cli, default). -/
def Generator.getMakefileTemplate (g : Generator) : String :=
  if g.config.PType = TypeLibrary then "Makefile-library.tmpl"
  else if g.config.PType = TypeService then "Makefile-service.tmpl"
  else if g.config.PType = TypeCLI then "Makefile-cli.tmpl"
  else "Makefile-cli.tmpl"

/-- The release-workflow switch inside generateWorkflowFiles, with the same
case order (library, service, cli, default). -/
def releaseWorkflowFor (projectType : String) : String :=
  if projectType = TypeLibrary then ".github/workflows/release-library.yml"
  else if projectType = TypeService then ".github/workflows/release-service.yml"
  else if projectType = TypeCLI then ".github/workflows/release-cli.yml"
  else ".github/workflows/release-cli.yml"

/-- generateWorkflowFiles from the generator package: copy the common test
workflow unmodified, then render the project-type-specific release workflow
through generateFile into .github/workflows/release.yml. -/
def Generator.generateWorkflowFiles (g : Generator) (env : Env)
    (projectPath : String) (fs : FS) : Except String Unit × FS :=
  match g.copyWorkflowFile env projectPath ".github/workflows/test.yml"
      ".github/workflows/test.yml" fs with
  | (.error e, fs1) => (.error e, fs1)
  | (.ok _, fs1) =>
    g.generateFile env projectPath ".github/workflows/release.yml"
      (releaseWorkflowFor g.config.PType) fs1

/-- The file table of generateFiles (a Go map in the source, modelled in
literal order; all claims about it are order-insensitive): the four core
files plus a Dockerfile for service projects. -/
def Generator.filesList (g : Generator) : List (String × String) :=
  [("README.md", "README.md.tmpl"),
   ("Makefile", g.getMakefileTemplate),
   (".gitignore", "gitignore.tmpl"),
   ("go.mod", "go.mod.tmpl")]
  ++ (if g.config.PType = TypeService then
        [("Dockerfile", "Dockerfile-service.tmpl")]
      else [])

/-- The loop of generateFiles over its file table. -/
def genFilesLoop (g : Generator) (env : Env) (projectPath : String) :
    List (String × String) → FS → Except String Unit × FS
  | [], fs => (.ok (), fs)
  | (fileName, templateName) :: rest, fs =>
    match g.generateFile env projectPath fileName templateName fs with
    | (.ok _, fs1) => genFilesLoop g env projectPath rest fs1
    | (.error e, fs1) => (.error e, fs1)

/-- The loop of createGitkeepFiles: skip cmd, attempt a .gitkeep write in
every other policy directory, and silently skip any write failure. -/
def gitkeepLoop (env : Env) (projectPath : String) :
    List String → FS → FS
  | [], fs => fs
  | dir :: rest, fs =>
    if dir = "cmd" then gitkeepLoop env projectPath rest fs
    else
      gitkeepLoop env projectPath rest
        (osWriteFile env (joinPath (joinPath projectPath dir) ".gitkeep")
          "" fs).2

/-- createGitkeepFiles from the generator package: always returns success,
whatever happens to the individual placeholder writes. -/
def Generator.createGitkeepFiles (g : Generator) (env : Env)
    (projectPath : String) (fs : FS) : Except String Unit × FS :=
  (.ok (), gitkeepLoop env projectPath (DirectoryStructure g.config.PType) fs)

/-- generateFiles from the generator package: the file table, then main.go
under cmd/ProjectName, then the workflow files, then the placeholders. -/
def Generator.generateFiles (g : Generator) (env : Env)
    (projectPath : String) (fs : FS) : Except String Unit × FS :=
  match genFilesLoop g env projectPath g.filesList fs with
  | (.error e, fs1) => (.error e, fs1)
  | (.ok _, fs1) =>
    match g.generateFile env projectPath
        (joinPath (joinPath "cmd" g.config.ProjectName) "main.go")
        "main.go.tmpl" fs1 with
    | (.error e, fs2) => (.error e, fs2)
    | (.ok _, fs2) =>
      match g.generateWorkflowFiles env projectPath fs2 with
      | (.error e, fs3) => (.error e, fs3)
      | (.ok _, fs3) => g.createGitkeepFiles env projectPath fs3

/-- The directory names printed by preview ("Directories to be created"):
the policy directories and cmd/ProjectName, as printed, relative to the
project path (the trailing slash and indentation of the printout are
presentation and are not part of the name). -/
def Generator.previewDirs (g : Generator) : List String :=
  DirectoryStructure g.config.PType ++ [joinPath "cmd" g.config.ProjectName]

/-- The file names printed by preview ("Files to be created"): the fixed
list plus a Dockerfile for service projects, as printed, relative to the
project path. -/
def Generator.previewFiles (g : Generator) : List String :=
  ["README.md", "Makefile", ".gitignore", "go.mod",
   "cmd/" ++ g.config.ProjectName ++ "/main.go"]
  ++ (if g.config.PType = TypeService then ["Dockerfile"] else [])

/-- The full path list reported by preview, directories then files. -/
def Generator.previewReport (g : Generator) : List String :=
  g.previewDirs ++ g.previewFiles

/-- preview from the generator package: prints the plan (modelled by
previewReport) and always returns success without touching the
filesystem. -/
def Generator.preview (g : Generator) (fs : FS) : Except String Unit × FS :=
  (.ok (), fs)

/-- Generate from the generator package: the existence precondition, then
either the dry-run preview or the real materialization (project root, the
directory structure, the files). -/
def Generator.Generate (g : Generator) (env : Env) (fs : FS) :
    Except String Unit × FS :=
  let projectPath := joinPath g.baseDir g.config.ProjectName
  if pathExists fs projectPath then
    (.error ("directory " ++ projectPath ++ " already exists"), fs)
  else if g.dryRun then
    g.preview fs
  else
    match osMkdirAll env projectPath fs with
    | (.error e, fs1) =>
      (.error ("failed to create project directory: " ++ e), fs1)
    | (.ok _, fs1) =>
      match g.createDirectories env projectPath fs1 with
      | (.error e, fs2) => (.error e, fs2)
      | (.ok _, fs2) => g.generateFiles env projectPath fs2

/-- A template source in which every resolution succeeds: workflow bytes
are given by W and template rendering by R.  This is the shape of the
embedded store when every name resolves and every execution succeeds. -/
def totalSource (W : String → String) (R : String → ProjectConfig → String) :
    TemplateSource :=
  { GetTemplate := fun n => .ok (fun c => .ok (R n c)),
    GetWorkflowFile := fun n => .ok (W n) }

/-- An environment in which every filesystem operation succeeds and the
template source is total. -/
def okEnv (W : String → String) (R : String → ProjectConfig → String) : Env :=
  { mkdirOk := fun _ => true, writeOk := fun _ => true, tsrc := totalSource W R }

/-- The path of the placeholder file written inside one policy directory. -/
def gitkeepPath (projectPath dir : String) : String :=
  joinPath (joinPath projectPath dir) ".gitkeep"

/-- The directories a successful real-mode run creates, in creation order:
the project root, the policy directories, cmd/ProjectName, and
.github/workflows. -/
def realDirs (g : Generator) : List String :=
  g.projectPath ::
    (DirectoryStructure g.config.PType).map (joinPath g.projectPath)
    ++ [joinPath (joinPath g.projectPath "cmd") g.config.ProjectName,
        joinPath (joinPath g.projectPath ".github") "workflows"]

/-- The files a successful real-mode run writes, in creation order: the
rendered file table, the rendered main.go, the raw test workflow, the
rendered release workflow, and the placeholder files. -/
def realFiles (g : Generator) (W : String → String)
    (R : String → ProjectConfig → String) : List (String × String) :=
  g.filesList.map (fun pr => (joinPath g.projectPath pr.1, R pr.2 g.config))
  ++ [(joinPath g.projectPath
         (joinPath (joinPath "cmd" g.config.ProjectName) "main.go"),
       R "main.go.tmpl" g.config),
      (joinPath g.projectPath ".github/workflows/test.yml",
       W ".github/workflows/test.yml"),
      (joinPath g.projectPath ".github/workflows/release.yml",
       R (releaseWorkflowFor g.config.PType) g.config)]
  ++ ((DirectoryStructure g.config.PType).filter (fun d => !(d == "cmd"))).map
      (fun d => (gitkeepPath g.projectPath d, ""))

theorem createDirsLoop_ok (env : Env) (hmk : ∀ q, env.mkdirOk q = true)
    (p : String) (ds : List String) (fs : FS) :
    createDirsLoop env p ds fs =
      (.ok (), FS.mk (fs.dirs ++ ds.map (joinPath p)) fs.files) := by
  induction ds generalizing fs with
  | nil => simp [createDirsLoop]
  | cons d rest ih => simp [createDirsLoop, osMkdirAll, hmk, ih]

theorem genFilesLoop_ok (g : Generator) (env : Env)
    (R : String → ProjectConfig → String)
    (hw : ∀ q, env.writeOk q = true)
    (ht : ∀ n, env.tsrc.GetTemplate n = .ok (fun c => .ok (R n c)))
    (p : String) (ps : List (String × String)) (fs : FS) :
    genFilesLoop g env p ps fs =
      (.ok (), FS.mk fs.dirs
        (fs.files ++ ps.map (fun pr => (joinPath p pr.1, R pr.2 g.config)))) := by
  induction ps generalizing fs with
  | nil => simp [genFilesLoop]
  | cons pr rest ih =>
    cases pr
    simp [genFilesLoop, Generator.generateFile, osWriteFile, hw, ht, ih]

theorem gitkeepLoop_spec (env : Env) (p : String) (ds : List String)
    (fs : FS) :
    gitkeepLoop env p ds fs =
      FS.mk fs.dirs (fs.files ++
        (ds.filter
          (fun d => !(d == "cmd") && env.writeOk (gitkeepPath p d))).map
          (fun d => (gitkeepPath p d, ""))) := by
  induction ds generalizing fs with
  | nil => simp [gitkeepLoop]
  | cons d rest ih =>
    by_cases hd : d = "cmd"
    · simp [gitkeepLoop, hd, ih]
    · by_cases hw : env.writeOk (gitkeepPath p d) = true
      · have hw2 : env.writeOk (joinPath (joinPath p d) ".gitkeep") = true := by
          simpa [gitkeepPath] using hw
        simp [gitkeepLoop, hd, osWriteFile, gitkeepPath, hw2, ih]
      · simp only [Bool.not_eq_true] at hw
        have hw2 : env.writeOk (joinPath (joinPath p d) ".gitkeep") = false := by
          simpa [gitkeepPath] using hw
        simp [gitkeepLoop, hd, osWriteFile, gitkeepPath, hw2, ih]

/-- A successful real-mode run, characterized: with every operation
succeeding and a total template source, Generate returns success and
appends exactly realDirs and realFiles to the filesystem. -/
theorem Generate_ok_run (cfg : ProjectConfig) (baseDir : String)
    (W : String → String) (R : String → ProjectConfig → String) (fs : FS)
    (hne : pathExists fs (joinPath baseDir cfg.ProjectName) = false) :
    Generator.Generate ⟨cfg, baseDir, false⟩ (okEnv W R) fs =
      (.ok (), ⟨fs.dirs ++ realDirs ⟨cfg, baseDir, false⟩,
                fs.files ++ realFiles ⟨cfg, baseDir, false⟩ W R⟩) := by
  have hmk : ∀ q, (okEnv W R).mkdirOk q = true := fun _ => rfl
  have hwr : ∀ q, (okEnv W R).writeOk q = true := fun _ => rfl
  have hgt : ∀ n, (okEnv W R).tsrc.GetTemplate n =
      .ok (fun c => .ok (R n c)) := fun _ => rfl
  have hgw : ∀ n, (okEnv W R).tsrc.GetWorkflowFile n = .ok (W n) :=
    fun _ => rfl
  simp [Generator.Generate, hne, osMkdirAll,
    Generator.createDirectories,
    createDirsLoop_ok (okEnv W R) hmk,
    Generator.generateFiles,
    genFilesLoop_ok _ (okEnv W R) R hwr hgt,
    Generator.generateFile, Generator.generateWorkflowFiles,
    Generator.copyWorkflowFile, osWriteFile,
    Generator.createGitkeepFiles, gitkeepLoop_spec, realDirs, realFiles,
    Generator.projectPath, gitkeepPath, hmk, hwr, hgt, hgw]

/-- A template source on which every resolution fails: used to observe
that the dry-run path never consults the template source. -/
def brokenSource : TemplateSource :=
  { GetTemplate := fun n => .error ("template " ++ n ++ " missing"),
    GetWorkflowFile := fun n => .error ("file " ++ n ++ " missing") }

/-- Claim C5: DirectoryStructure is a pure total function over all project
type values: it always returns (deterministically) a non-empty list with no
duplicate directory names, and every value outside cli, library and service
receives exactly the list of the CLI type. -/
theorem claim_C5_directoryStructure_total (t : String) :
    DirectoryStructure t ≠ [] ∧ (DirectoryStructure t).Nodup ∧
    (t ∉ [TypeCLI, TypeLibrary, TypeService] →
      DirectoryStructure t = DirectoryStructure TypeCLI) := by
  refine ⟨?_, ?_, ?_⟩
  · unfold DirectoryStructure
    split_ifs <;> simp
  · unfold DirectoryStructure
    split_ifs <;> decide
  · intro ht
    simp only [List.mem_cons, not_or] at ht
    obtain ⟨h1, h2, h3, -⟩ := ht
    simp only [TypeCLI, TypeLibrary, TypeService] at h1 h2 h3
    simp [DirectoryStructure, TypeCLI, TypeLibrary, TypeService, h1, h2, h3]

/-- Witness for C5 at the unrecognized type value "weird". -/
theorem claim_C5_witness :
    "weird" ∉ [TypeCLI, TypeLibrary, TypeService] ∧
    DirectoryStructure "weird" = DirectoryStructure TypeCLI :=
  ⟨by decide, (claim_C5_directoryStructure_total "weird").2.2 (by decide)⟩

/-- Claim C6: ValidateProjectName succeeds exactly on the non-empty
strings that contain none of the reserved characters, i.e. it errors on
the empty string and on every string containing a reserved character. -/
theorem claim_C6_validateProjectName (name : String) :
    ValidateProjectName name = .ok () ↔
      (name ≠ "" ∧ ∀ c ∈ name.data, c ∉ invalidChars) := by
  unfold ValidateProjectName containsAny
  split_ifs with h1 h2
  · simp [h1]
  · simp only [List.any_eq_true] at h2
    obtain ⟨c, hc, hmem⟩ := h2
    constructor
    · intro h; cases h
    · rintro ⟨-, hall⟩
      exact absurd (by simpa using hmem) (hall c hc)
  · simp only [List.any_eq_true, not_exists] at h2
    push_neg at h2
    constructor
    · intro _
      exact ⟨h1, fun c hc hmem => by
        have := h2 c hc
        simp at this
        exact this hmem⟩
    · intro _; rfl

/-- Claim C3: with the dry-run flag set and the target path not already
existing, Generate succeeds and returns the filesystem exactly unchanged:
no directory is created, no file is written, and the parent of the target
path keeps exactly its previous entries. -/
theorem claim_C3_dryRun_no_mutation (g : Generator) (env : Env) (fs : FS)
    (hdry : g.dryRun = true)
    (hne : pathExists fs (joinPath g.baseDir g.config.ProjectName) = false) :
    g.Generate env fs = (.ok (), fs) := by
  simp [Generator.Generate, hne, hdry, Generator.preview]

/-- Witness for C3: a concrete dry run over the empty filesystem. -/
theorem claim_C3_witness :
    pathExists ⟨[], []⟩ (joinPath "base" "demo") = false ∧
    Generator.Generate ⟨⟨"demo", "demo", "Ann", "MIT", "cli"⟩, "base", true⟩
        (okEnv (fun _ => "") (fun _ _ => "")) ⟨[], []⟩ = (.ok (), ⟨[], []⟩) :=
  ⟨by decide,
   claim_C3_dryRun_no_mutation ⟨⟨"demo", "demo", "Ann", "MIT", "cli"⟩, "base", true⟩
     (okEnv (fun _ => "") (fun _ _ => "")) ⟨[], []⟩ rfl (by decide)⟩

/-- Claim C4: when a filesystem entry already occupies baseDir/ProjectName,
Generate fails with the already-exists error and performs no filesystem
writes; the check happens before the dry-run/real branch, so the theorem
holds for both values of the flag. -/
theorem claim_C4_already_exists (g : Generator) (env : Env) (fs : FS)
    (hex : pathExists fs (joinPath g.baseDir g.config.ProjectName) = true) :
    g.Generate env fs =
      (.error ("directory " ++ joinPath g.baseDir g.config.ProjectName ++
        " already exists"), fs) := by
  simp [Generator.Generate, hex]

/-- Witness for C4: the same occupied target rejected in dry-run mode and
in real mode, with the filesystem untouched in both. -/
theorem claim_C4_witness :
    pathExists ⟨["base/demo"], []⟩ (joinPath "base" "demo") = true ∧
    Generator.Generate ⟨⟨"demo", "demo", "Ann", "MIT", "cli"⟩, "base", true⟩
        (okEnv (fun _ => "") (fun _ _ => "")) ⟨["base/demo"], []⟩ =
      (.error ("directory " ++ joinPath "base" "demo" ++ " already exists"),
       ⟨["base/demo"], []⟩) ∧
    Generator.Generate ⟨⟨"demo", "demo", "Ann", "MIT", "cli"⟩, "base", false⟩
        (okEnv (fun _ => "") (fun _ _ => "")) ⟨["base/demo"], []⟩ =
      (.error ("directory " ++ joinPath "base" "demo" ++ " already exists"),
       ⟨["base/demo"], []⟩) :=
  ⟨by decide,
   claim_C4_already_exists ⟨⟨"demo", "demo", "Ann", "MIT", "cli"⟩, "base", true⟩
     (okEnv (fun _ => "") (fun _ _ => "")) ⟨["base/demo"], []⟩ (by decide),
   claim_C4_already_exists ⟨⟨"demo", "demo", "Ann", "MIT", "cli"⟩, "base", false⟩
     (okEnv (fun _ => "") (fun _ _ => "")) ⟨["base/demo"], []⟩ (by decide)⟩

/-- Claim C8: in the non-interactive flow, after default-filling, an empty
module-path flag yields ModulePath equal to the project name and an empty
author flag yields Author "Your Name"; non-empty flag values are kept. -/
theorem claim_C8_defaults (projectName : String) (flags : Flags)
    (cfg : ProjectConfig)
    (h : runNewNonInteractive projectName flags = .ok cfg) :
    cfg.ModulePath =
      (if flags.modulePath = "" then projectName else flags.modulePath) ∧
    cfg.Author = (if flags.author = "" then "Your Name" else flags.author) := by
  unfold runNewNonInteractive at h
  cases hv : ValidateProjectName projectName with
  | error e => rw [hv] at h; cases h
  | ok u =>
    rw [hv] at h
    dsimp only at h
    by_cases ht : flags.projectType ≠ TypeCLI ∧ flags.projectType ≠ TypeLibrary ∧
        flags.projectType ≠ TypeService
    · rw [if_pos ht] at h; cases h
    · rw [if_neg ht] at h
      have h2 := Except.ok.inj h
      subst h2
      exact ⟨rfl, rfl⟩

/-- Witness for C8: the concrete scenario of the specification, the config
with name demo, empty module path and author, MIT license, cli type. -/
theorem claim_C8_witness :
    runNewNonInteractive "demo" ⟨"", "", "MIT", "cli"⟩ =
      .ok ⟨"demo", "demo", "Your Name", "MIT", "cli"⟩ ∧
    ProjectConfig.ModulePath ⟨"demo", "demo", "Your Name", "MIT", "cli"⟩ =
      "demo" ∧
    ProjectConfig.Author ⟨"demo", "demo", "Your Name", "MIT", "cli"⟩ =
      "Your Name" := by
  have h : runNewNonInteractive "demo" ⟨"", "", "MIT", "cli"⟩ =
      .ok ⟨"demo", "demo", "Your Name", "MIT", "cli"⟩ := by rfl
  have h2 := claim_C8_defaults "demo" ⟨"", "", "MIT", "cli"⟩
    ⟨"demo", "demo", "Your Name", "MIT", "cli"⟩ h
  exact ⟨h, by simpa using h2.1, by simpa using h2.2⟩

/-- Claim C9: createGitkeepFiles always returns success, whatever the
environment does to the individual writes: a placeholder write is attempted
in every policy directory except cmd, and exactly those attempts the
environment lets succeed are recorded, a failed attempt being silently
skipped without aborting. -/
theorem claim_C9_gitkeep_best_effort (g : Generator) (env : Env)
    (projectPath : String) (fs : FS) :
    g.createGitkeepFiles env projectPath fs =
      (.ok (), FS.mk fs.dirs (fs.files ++
        ((DirectoryStructure g.config.PType).filter
          (fun d => !(d == "cmd") &&
            env.writeOk (gitkeepPath projectPath d))).map
          (fun d => (gitkeepPath projectPath d, "")))) := by
  simp [Generator.createGitkeepFiles, gitkeepLoop_spec]

/-- Claim C10: in dry-run mode with the target path missing, Generate
returns success for every environment and in particular for every template
source: the preview resolves no template, so a broken or missing template
(which would abort a real run) is never detected by a dry run. -/
theorem claim_C10_dryRun_ignores_templates (g : Generator) (fs : FS)
    (hdry : g.dryRun = true)
    (hne : pathExists fs (joinPath g.baseDir g.config.ProjectName) = false) :
    ∀ env : Env, (g.Generate env fs).1 = .ok () := by
  intro env
  simp [Generator.Generate, hne, hdry, Generator.preview]

/-- Witness for C10: a dry run under the all-failing template source still
succeeds, while the same configuration in real mode under that source
fails on the first template load. -/
theorem claim_C10_witness :
    (Generator.Generate ⟨⟨"app", "m", "A", "MIT", "library"⟩, "b", true⟩
        ⟨fun _ => true, fun _ => true, brokenSource⟩ ⟨[], []⟩).1 = .ok () ∧
    (Generator.Generate ⟨⟨"app", "m", "A", "MIT", "library"⟩, "b", false⟩
        ⟨fun _ => true, fun _ => true, brokenSource⟩ ⟨[], []⟩).1 =
      .error ("failed to load template README.md.tmpl: " ++
        "template README.md.tmpl missing") :=
  ⟨claim_C10_dryRun_ignores_templates
     ⟨⟨"app", "m", "A", "MIT", "library"⟩, "b", true⟩ ⟨[], []⟩ rfl (by decide)
     ⟨fun _ => true, fun _ => true, brokenSource⟩,
   by rfl⟩

theorem joinPath_assoc (a b c : String) :
    joinPath a (joinPath b c) = joinPath (joinPath a b) c := by
  simp [joinPath, String.append_assoc]

theorem cmd_main_go (n : String) :
    "cmd/" ++ n ++ "/main.go" = joinPath (joinPath "cmd" n) "main.go" := by
  unfold joinPath
  rw [show ("cmd" : String) ++ "/" = "cmd/" from rfl,
    String.append_assoc ("cmd/" ++ n) "/" "main.go",
    show ("/" : String) ++ "main.go" = "/main.go" from rfl]

/-- Claim C2 counterexample: under a template source whose raw bytes and
rendered output differ, the written release workflow carries the rendered
(substituted) content and not the raw bytes, while the test workflow
carries the raw bytes: the release workflow is not copied byte-for-byte
like the test workflow is. -/
theorem claim_C2_counterexample :
    ((Generator.Generate ⟨⟨"demo", "demo", "Ann", "MIT", "cli"⟩, "base", false⟩
        (okEnv (fun n => "RAW:" ++ n)
          (fun n c => "TMPL:" ++ n ++ ":" ++ c.ProjectName))
        ⟨[], []⟩).2.files.contains
      ("base/demo/.github/workflows/test.yml",
       "RAW:.github/workflows/test.yml") = true) ∧
    ((Generator.Generate ⟨⟨"demo", "demo", "Ann", "MIT", "cli"⟩, "base", false⟩
        (okEnv (fun n => "RAW:" ++ n)
          (fun n c => "TMPL:" ++ n ++ ":" ++ c.ProjectName))
        ⟨[], []⟩).2.files.contains
      ("base/demo/.github/workflows/release.yml",
       "TMPL:.github/workflows/release-cli.yml:demo") = true) ∧
    ((Generator.Generate ⟨⟨"demo", "demo", "Ann", "MIT", "cli"⟩, "base", false⟩
        (okEnv (fun n => "RAW:" ++ n)
          (fun n c => "TMPL:" ++ n ++ ":" ++ c.ProjectName))
        ⟨[], []⟩).2.files.contains
      ("base/demo/.github/workflows/release.yml",
       "RAW:.github/workflows/release-cli.yml") = false) :=
  ⟨by rfl, by rfl, by rfl⟩

/-- Claim C2 amended: the test workflow is written with the raw bytes the
template source returns for it (no substitution), while the release
workflow is written with the rendering of the type-specific release
template against the configuration, i.e. with substitution applied. -/
theorem claim_C2_amended (cfg : ProjectConfig) (baseDir : String)
    (W : String → String) (R : String → ProjectConfig → String) (fs : FS)
    (hne : pathExists fs (joinPath baseDir cfg.ProjectName) = false) :
    (joinPath (joinPath baseDir cfg.ProjectName)
       ".github/workflows/test.yml", W ".github/workflows/test.yml") ∈
      (Generator.Generate ⟨cfg, baseDir, false⟩ (okEnv W R) fs).2.files ∧
    (joinPath (joinPath baseDir cfg.ProjectName)
       ".github/workflows/release.yml", R (releaseWorkflowFor cfg.PType) cfg) ∈
      (Generator.Generate ⟨cfg, baseDir, false⟩ (okEnv W R) fs).2.files := by
  rw [Generate_ok_run cfg baseDir W R fs hne]
  constructor <;> simp [realFiles, Generator.projectPath]

/-- Witness for the amended C2 at a concrete configuration. -/
theorem claim_C2_amended_witness :
    (joinPath (joinPath "base" "demo") ".github/workflows/test.yml",
       "rawbytes") ∈
      (Generator.Generate ⟨⟨"demo", "demo", "Ann", "MIT", "cli"⟩, "base",
          false⟩
        (okEnv (fun _ => "rawbytes") (fun _ _ => "rendered"))
        ⟨[], []⟩).2.files ∧
    (joinPath (joinPath "base" "demo") ".github/workflows/release.yml",
       "rendered") ∈
      (Generator.Generate ⟨⟨"demo", "demo", "Ann", "MIT", "cli"⟩, "base",
          false⟩
        (okEnv (fun _ => "rawbytes") (fun _ _ => "rendered"))
        ⟨[], []⟩).2.files :=
  claim_C2_amended ⟨"demo", "demo", "Ann", "MIT", "cli"⟩ "base"
    (fun _ => "rawbytes") (fun _ _ => "rendered") ⟨[], []⟩ (by decide)

/-- Claim C7: a successful real-mode run writes exactly the realFiles list;
that list contains a Dockerfile exactly once for the service type and never
otherwise, the release.yml written carries the rendering of the
type-specific release workflow variant, the Makefile written uses the
type-selected Makefile template, and any type value outside the three known
ones falls back to the CLI variant for both the Makefile and the release
workflow. -/
theorem claim_C7_type_specific_artifacts (cfg : ProjectConfig)
    (baseDir : String) (W : String → String)
    (R : String → ProjectConfig → String) (fs : FS)
    (hne : pathExists fs (joinPath baseDir cfg.ProjectName) = false) :
    ((Generator.Generate ⟨cfg, baseDir, false⟩ (okEnv W R) fs).2.files =
      fs.files ++ realFiles ⟨cfg, baseDir, false⟩ W R) ∧
    ((Generator.filesList ⟨cfg, baseDir, false⟩).countP
        (fun pr => pr.1 == "Dockerfile") =
      (if cfg.PType = TypeService then 1 else 0)) ∧
    ((("Dockerfile", "Dockerfile-service.tmpl") ∈
        Generator.filesList ⟨cfg, baseDir, false⟩) ↔
      cfg.PType = TypeService) ∧
    (("Makefile", Generator.getMakefileTemplate ⟨cfg, baseDir, false⟩) ∈
      Generator.filesList ⟨cfg, baseDir, false⟩) ∧
    ((joinPath (joinPath baseDir cfg.ProjectName)
        ".github/workflows/release.yml",
      R (releaseWorkflowFor cfg.PType) cfg) ∈
      realFiles ⟨cfg, baseDir, false⟩ W R) ∧
    (releaseWorkflowFor TypeCLI = ".github/workflows/release-cli.yml" ∧
     releaseWorkflowFor TypeLibrary = ".github/workflows/release-library.yml" ∧
     releaseWorkflowFor TypeService = ".github/workflows/release-service.yml") ∧
    (cfg.PType ≠ TypeCLI → cfg.PType ≠ TypeLibrary → cfg.PType ≠ TypeService →
      Generator.getMakefileTemplate ⟨cfg, baseDir, false⟩ =
        "Makefile-cli.tmpl" ∧
      releaseWorkflowFor cfg.PType = ".github/workflows/release-cli.yml") := by
  refine ⟨?_, ?_, ?_, ?_, ?_, ⟨by rfl, by rfl, by rfl⟩, ?_⟩
  · rw [Generate_ok_run cfg baseDir W R fs hne]
  · by_cases hs : cfg.PType = TypeService <;>
      simp [Generator.filesList, hs]
  · by_cases hs : cfg.PType = TypeService <;>
      simp [Generator.filesList, hs]
  · simp [Generator.filesList]
  · simp [realFiles, Generator.projectPath]
  · intro h1 h2 h3
    exact ⟨by simp [Generator.getMakefileTemplate, h1, h2, h3],
           by simp [releaseWorkflowFor, h1, h2, h3]⟩

/-- Witness for C7: the Dockerfile count of the file table at a concrete
service configuration and at a concrete cli configuration. -/
theorem claim_C7_witness :
    (Generator.filesList ⟨⟨"svc", "m", "A", "MIT", "service"⟩, "base",
        false⟩).countP (fun pr => pr.1 == "Dockerfile") = 1 ∧
    (Generator.filesList ⟨⟨"app", "m", "A", "MIT", "cli"⟩, "base",
        false⟩).countP (fun pr => pr.1 == "Dockerfile") = 0 := by
  constructor
  · have h := claim_C7_type_specific_artifacts ⟨"svc", "m", "A", "MIT",
      "service"⟩ "base" (fun _ => "w") (fun _ _ => "r") ⟨[], []⟩ (by decide)
    simpa [TypeService] using h.2.1
  · have h := claim_C7_type_specific_artifacts ⟨"app", "m", "A", "MIT",
      "cli"⟩ "base" (fun _ => "w") (fun _ _ => "r") ⟨[], []⟩ (by decide)
    simpa [TypeService] using h.2.1

/-- Every path the preview reports (made absolute under the project path)
is a directory the real run creates or a file it writes. -/
theorem previewReport_subset (g : Generator) (W : String → String)
    (R : String → ProjectConfig → String) :
    ∀ x ∈ g.previewReport.map (joinPath g.projectPath),
      x ∈ realDirs g ∨ x ∈ (realFiles g W R).map Prod.fst := by
  intro x hx
  rcases List.mem_map.mp hx with ⟨y, hy, rfl⟩
  rcases List.mem_append.mp hy with hyd | hyf
  · rcases List.mem_append.mp hyd with hpol | hcmd
    · left
      have hm : joinPath g.projectPath y ∈
          (DirectoryStructure g.config.PType).map (joinPath g.projectPath) :=
        List.mem_map_of_mem _ hpol
      simp only [realDirs, List.mem_cons, List.mem_append, List.mem_singleton]
      tauto
    · have hy2 : y = joinPath "cmd" g.config.ProjectName := by
        simpa using hcmd
      subst hy2
      left
      rw [joinPath_assoc]
      simp [realDirs]
  · rcases List.mem_append.mp hyf with hcore | hdock
    · simp only [List.mem_cons, List.not_mem_nil, or_false] at hcore
      rcases hcore with rfl | rfl | rfl | rfl | rfl
      · right; simp [realFiles, Generator.filesList]
      · right; simp [realFiles, Generator.filesList]
      · right; simp [realFiles, Generator.filesList]
      · right; simp [realFiles, Generator.filesList]
      · right
        rw [cmd_main_go]
        simp [realFiles]
    · by_cases hs : g.config.PType = TypeService
      · rw [if_pos hs] at hdock
        have hy2 : y = "Dockerfile" := by simpa using hdock
        subst hy2
        right
        simp [realFiles, Generator.filesList, hs]
      · rw [if_neg hs] at hdock
        simp at hdock

/-- Claim C1 counterexample: for the cli configuration demo under the base
directory base, with every operation succeeding, the path of the generated
test workflow file is created by real mode but is not among the paths the
dry-run preview reports: the two path sets are not equal. -/
theorem claim_C1_counterexample :
    ¬ (∀ x : String,
        x ∈ (Generator.previewReport
              ⟨⟨"demo", "demo", "Ann", "MIT", "cli"⟩, "base", true⟩).map
            (joinPath (joinPath "base" "demo")) ↔
        x ∈ (Generator.Generate
              ⟨⟨"demo", "demo", "Ann", "MIT", "cli"⟩, "base", false⟩
              (okEnv (fun _ => "w") (fun _ _ => "r")) ⟨[], []⟩).2.paths) := by
  intro h
  have h2 := (h "base/demo/.github/workflows/test.yml").mpr (by decide)
  have h3 : ¬ ("base/demo/.github/workflows/test.yml" ∈
      (Generator.previewReport
        ⟨⟨"demo", "demo", "Ann", "MIT", "cli"⟩, "base", true⟩).map
        (joinPath (joinPath "base" "demo"))) := by decide
  exact h3 h2

/-- Claim C1 amended: every path the dry-run preview reports is among the
paths that a successful real-mode run with the same configuration and base
directory creates; the real run additionally creates the workflow
directory, the workflow files and the placeholder files, so the inclusion
is strict (see the counterexample). -/
theorem claim_C1_amended (cfg : ProjectConfig) (baseDir : String)
    (W : String → String) (R : String → ProjectConfig → String) (fs : FS)
    (hne : pathExists fs (joinPath baseDir cfg.ProjectName) = false) :
    ∀ x ∈ (Generator.previewReport ⟨cfg, baseDir, true⟩).map
        (joinPath (joinPath baseDir cfg.ProjectName)),
      x ∈ (Generator.Generate ⟨cfg, baseDir, false⟩ (okEnv W R) fs).2.paths := by
  intro x hx
  rw [Generate_ok_run cfg baseDir W R fs hne]
  have hx2 : x ∈ (Generator.previewReport ⟨cfg, baseDir, false⟩).map
      (joinPath (Generator.projectPath ⟨cfg, baseDir, false⟩)) := hx
  have h := previewReport_subset ⟨cfg, baseDir, false⟩ W R x hx2
  rcases h with hd | hf
  · simp [FS.paths, hd]
  · simp [FS.paths, hf]

/-- Witness for the amended C1: a reported path of the concrete demo
preview is indeed created by the concrete real run. -/
theorem claim_C1_amended_witness :
    joinPath (joinPath "base" "demo") "README.md" ∈
      (Generator.Generate ⟨⟨"demo", "demo", "Ann", "MIT", "cli"⟩, "base",
          false⟩
        (okEnv (fun _ => "w") (fun _ _ => "r")) ⟨[], []⟩).2.paths :=
  claim_C1_amended ⟨"demo", "demo", "Ann", "MIT", "cli"⟩ "base" (fun _ => "w")
    (fun _ _ => "r") ⟨[], []⟩ (by decide)
    (joinPath (joinPath "base" "demo") "README.md") (by decide)

end Scaffold
